import Mathlib

/-!
Shallow embedding of the feedback-backend router
(src/plugins/feedback-backend/src/service/router.ts) of the
janus-idp feedback plugins repository, together with the parts of the
feedback store that the router calls.  JavaScript strings are modelled by
Lean `String`, absent (`undefined`) values by `Option`, and the
template-literal rule that `undefined` prints as the text "undefined" by
the helper `jsStr`.  Each express handler becomes a pure function from its
inputs (request data plus an environment holding the results of the
outbound calls it makes) to the ordered list of observable events it
performs.  A JavaScript runtime `TypeError` (for instance calling a method
on `undefined`) is modelled by a `crashed` flag: events performed before
the throw are kept, nothing after it happens.
-/

/-- The FeedbackModel record shape (model/feedback.model.ts): every field
may be absent on an incoming request body, so each is an `Option String`. -/
structure FeedbackModel where
  feedbackId : Option String := none
  summary : Option String := none
  description : Option String := none
  tag : Option String := none
  feedbackType : Option String := none
  createdBy : Option String := none
  updatedBy : Option String := none
  projectId : Option String := none
  url : Option String := none
  ticketUrl : Option String := none
  createdAt : Option String := none
  updatedAt : Option String := none
deriving DecidableEq

/-- JavaScript template interpolation of a possibly-undefined string:
`${undefined}` renders as the literal text "undefined". -/
def jsStr (o : Option String) : String := o.getD "undefined"

/-- JavaScript truthiness of a possibly-undefined string: `undefined` and
the empty string are falsy. -/
def jsTruthy (o : Option String) : Bool :=
  match o with
  | none => false
  | some s => s != ""

/-- Embedding of `String.prototype.split` with a one-character separator
(the router only splits on "/" and " "), by structural recursion on the
character list: splits at every occurrence of the separator, neighbouring
separators yielding empty pieces, as in JavaScript. -/
def splitCharList (sep : Char) : List Char → List (List Char)
  | [] => [[]]
  | c :: rest =>
    let r := splitCharList sep rest
    if c == sep then [] :: r
    else match r with
      | [] => [[c]]
      | h :: t => (c :: h) :: t

/-- The string form of `splitCharList`. -/
def jsSplit (sep : Char) (s : String) : List String :=
  (splitCharList sep s.data).map String.mk

/-- Embedding of `String.prototype.toUpperCase` (characterwise, which
agrees with it on ASCII strings such as the compared annotation values). -/
def jsToUpper (s : String) : String := String.mk (s.data.map Char.toUpper)

/-- Embedding of `String.prototype.toLowerCase` (characterwise, which
agrees with it on ASCII strings). -/
def jsToLower (s : String) : String := String.mk (s.data.map Char.toLower)

/-- Whether `pat` occurs at the front of `l`. -/
def startsWithChars : List Char → List Char → Bool
  | _, [] => true
  | [], _ :: _ => false
  | a :: as, b :: bs => a == b && startsWithChars as bs

/-- Whether `pat` occurs anywhere in `l`. -/
def containsChars : List Char → List Char → Bool
  | [], pat => pat.isEmpty
  | c :: rest, pat => startsWithChars (c :: rest) pat || containsChars rest pat

/-- Substring containment on strings. -/
def jsIncludes (s pat : String) : Bool := containsChars s.data pat.data

/-- The expression `x?.split('/')[i]` rendered through a template literal:
"undefined" when `x` is undefined or the index is out of range. -/
def splitPart (o : Option String) (i : Nat) : String :=
  match o with
  | none => "undefined"
  | some s => ((jsSplit '/' s).get? i).getD "undefined"

/-- Modelled from the spec: the DatabaseFeedbackStore (its source file is
not part of the provided sources; §4.4 of the spec gives its contract).
The table is an association list from feedback id to record. -/
abbrev Store := List (String × FeedbackModel)

/-- Modelled from the spec: `checkFeedbackId(id) → boolean`. -/
def checkFeedbackId (db : Store) (id : String) : Bool :=
  (List.find? (fun p => p.1 == id) db).isSome

/-- Modelled from the spec: `getFeedbackByUuid(id) → record`. -/
def getFeedbackByUuid (db : Store) (id : String) : Option FeedbackModel :=
  (List.find? (fun p => p.1 == id) db).map (fun p => p.2)

/-- Modelled from the spec: `deleteFeedbackById(id) → void` removes the
record with the given id. -/
def deleteFeedbackById (db : Store) (id : String) : Store :=
  List.filter (fun p => p.1 != id) db

/-- Response bodies the router sends (the JSON shapes used in router.ts). -/
inductive RespBody where
  | err (msg : String)
  | msg (m : String)
  | created (message : String) (data : FeedbackModel)
  | fetched (data : Option FeedbackModel) (message : String)
deriving DecidableEq

/-- The express response channel: the first status/json write is the
response the client receives; any later write attempt throws
ERR_HTTP_HEADERS_SENT and is recorded in `lateAttempts` without changing
what was sent. -/
structure Res where
  sent : Option (Nat × RespBody) := none
  lateAttempts : List (Nat × RespBody) := []
deriving DecidableEq

/-- One `res.status(s).json(b)` call against the response channel. -/
def resSend (r : Res) (status : Nat) (b : RespBody) : Res :=
  match r.sent with
  | none => { r with sent := some (status, b) }
  | some _ => { r with lateAttempts := r.lateAttempts ++ [(status, b)] }

/-- The DELETE /:id handler (router.ts lines 283-294).  When the id exists
it deletes and sends 200; the missing early return then lets control fall
through to the error log and a second (late) 404 response attempt.  When
the id does not exist only the log and the 404 happen.  Result: updated
store, response channel, logger.error lines. -/
def deleteHandler (db : Store) (feedbackId : String) : Store × Res × List String :=
  if checkFeedbackId db feedbackId then
    let db2 := deleteFeedbackById db feedbackId
    let r1 := resSend {} 200 (RespBody.msg "Deleted successfully")
    let r2 := resSend r1 404 (RespBody.msg ("No feedback found for id " ++ feedbackId))
    (db2, r2, ["No feedback found for id " ++ feedbackId])
  else
    let r1 := resSend {} 404 (RespBody.msg ("No feedback found for id " ++ feedbackId))
    (db, r1, ["No feedback found for id " ++ feedbackId])

/-- The GET /:id handler (router.ts lines 208-222): 200 with the record
when the id exists, else 404. -/
def getByIdHandler (db : Store) (feedbackId : String) : Nat × RespBody :=
  if checkFeedbackId db feedbackId then
    (200, RespBody.fetched (getFeedbackByUuid db feedbackId) "Feedback fetched successfully")
  else
    (404, RespBody.err ("No feedback found for id " ++ feedbackId))

theorem checkFeedbackId_deleteFeedbackById (db : Store) (id : String) :
    checkFeedbackId (deleteFeedbackById db id) id = false := by
  unfold checkFeedbackId deleteFeedbackById
  have h : List.find? (fun p => p.1 == id) (List.filter (fun p => p.1 != id) db) = none := by
    rw [List.find?_eq_none]
    intro p hp
    have hmem := List.of_mem_filter hp
    simp only [bne_iff_ne, ne_eq, decide_eq_true_eq] at hmem
    simpa using hmem
  rw [h]
  rfl

/-- C1: for every feedback id, DELETE /:id sends 404 as its response exactly
when no record with that id exists; when the record exists it is deleted,
the single response the client receives is a 200 success, and a subsequent
GET /:id for that id returns 404. -/
theorem delete_responds_404_iff_absent (db : Store) (id : String) :
    (checkFeedbackId db id = false →
      (deleteHandler db id).2.1.sent =
        some (404, RespBody.msg ("No feedback found for id " ++ id))) ∧
    (checkFeedbackId db id = true →
      (deleteHandler db id).2.1.sent = some (200, RespBody.msg "Deleted successfully") ∧
      checkFeedbackId (deleteHandler db id).1 id = false ∧
      (getByIdHandler (deleteHandler db id).1 id).1 = 404) := by
  constructor
  · intro h
    simp [deleteHandler, h, resSend]
  · intro h
    have hdel : (deleteHandler db id).1 = deleteFeedbackById db id := by
      simp [deleteHandler, h]
    refine ⟨?_, ?_, ?_⟩
    · simp [deleteHandler, h, resSend]
    · rw [hdel]; exact checkFeedbackId_deleteFeedbackById db id
    · rw [hdel]
      simp [getByIdHandler, checkFeedbackId_deleteFeedbackById db id]

theorem delete_responds_404_iff_absent_witness :
    checkFeedbackId [("a", ({} : FeedbackModel))] "a" = true ∧
    ((deleteHandler [("a", ({} : FeedbackModel))] "a").2.1.sent =
        some (200, RespBody.msg "Deleted successfully") ∧
      checkFeedbackId (deleteHandler [("a", ({} : FeedbackModel))] "a").1 "a" = false ∧
      (getByIdHandler (deleteHandler [("a", ({} : FeedbackModel))] "a").1 "a").1 = 404) :=
  ⟨by decide, (delete_responds_404_iff_absent [("a", {})] "a").2 (by decide)⟩

/-- One entry of `feedback.integrations.jira` in configuration: a host and
its auth token (config.d.ts / spec §3 JiraIntegrationConfig). -/
structure JiraConf where
  host : String
  token : String
deriving DecidableEq

/-- Catalog entity metadata as the router reads it.  The `nmspace` field
models `metadata.namespace` (namespace is a reserved word in Lean).
`annotations` is `none` when the metadata carries no annotations object;
key lookup in the object is `getAnn`. -/
structure EntityMeta where
  nmspace : String
  name : String
  title : Option String := none
  annotations : Option (List (String × String)) := none
deriving DecidableEq

/-- A catalog entity as the router reads it: kind plus metadata. -/
structure Entity where
  kind : String
  metadata : EntityMeta
deriving DecidableEq

/-- Lookup `annotations[key]` in an annotations object. -/
def getAnn (anns : List (String × String)) (key : String) : Option String :=
  (List.find? (fun p => p.1 == key) anns).map (fun p => p.2)

set_option maxHeartbeats 1000000 in
/-- The environment of one POST / request: results of the outbound calls
the handler makes (catalog lookups, config reads, store insert, Jira
username lookup, ticket creation) plus request-independent inputs (origin
header, current time). -/
structure PostEnv where
  entity : Option Entity
  reporterEmail : Option String
  appTitle : String
  jiraConfigs : List JiraConf
  jiraUsername : Option String
  ticketKey : String
  storeResult : Option String
  origin : String
  now : String
  nowUTC : String
deriving DecidableEq

set_option maxHeartbeats 1000000 in
/-- Observable events of a POST / execution, in program order.  The field
`toAddr` of `mailSend` models the `to` option of `sendMail` (`to` is a
reserved word in Lean). -/
inductive Event where
  | response (status : Nat) (body : RespBody)
  | storeInsert (rec : FeedbackModel)
  | ticketCreate (host : String) (token : String) (projectKey : Option String)
      (summary : Option String) (description : String) (tag : String)
      (fType : Option String) (assignee : Option String)
  | storeUpdate (rec : FeedbackModel)
  | mailSend (toAddr : String) (replyTo : Option String) (subject : String) (body : String)
deriving DecidableEq

/-- Result of running the POST / handler: its events in order, and whether
it threw a TypeError after the last recorded event. -/
structure PostResult where
  events : List Event
  crashed : Bool
deriving DecidableEq

/-- Embedding of `String.prototype.trim`: drops leading and trailing
whitespace.  Written by structural recursion over the character list so
that concrete instances evaluate by kernel reduction. -/
def jsTrim (s : String) : String :=
  String.mk (((s.data.dropWhile Char.isWhitespace).reverse.dropWhile Char.isWhitespace).reverse)

/-- The validation test of router.ts line 48:
`!reqData.summary || reqData.summary?.trim().length < 1`. -/
def summaryInvalid (s : Option String) : Bool :=
  match s with
  | none => true
  | some str => str == "" || (jsTrim str).length < 1

/-- Router.ts lines 60-61: display name of the feedback type. -/
def displayFeedbackType (req : FeedbackModel) : String :=
  if req.feedbackType == some "FEEDBACK" then "Feedback" else "Issue"

/-- Router.ts line 58: the entity display route built from the origin
header and the entity reference (each `entityRef?.…` interpolation renders
"undefined" when the entity was not found). -/
def entityRouteOf (env : PostEnv) : String :=
  env.origin ++ "/catalog/" ++
    (match env.entity with | some e => e.metadata.nmspace | none => "undefined") ++ "/" ++
    (match env.entity with | some e => e.kind | none => "undefined") ++ "/" ++
    (match env.entity with | some e => e.metadata.name | none => "undefined") ++ "/feedback"

/-- The `entityRef?.metadata.title || entityRef?.metadata.name` expression
of router.ts line 69, JavaScript falsiness included. -/
def titleOrName (entity : Option Entity) : String :=
  match entity with
  | none => "undefined"
  | some e =>
    match e.metadata.title with
    | some t => if t == "" then e.metadata.name else t
    | none => e.metadata.name

/-- Router.ts lines 51-70: stamping of createdAt/updatedAt/updatedBy and
the summary-overflow demotion: a summary longer than 255 characters is
prepended (with a blank line) to the description and replaced by the
templated short summary. -/
def prepareReqData (env : PostEnv) (req0 : FeedbackModel) : FeedbackModel :=
  let r := { req0 with
    createdAt := some env.now
    updatedBy := req0.createdBy
    updatedAt := some env.now }
  let over := match r.summary with
    | some s => decide (s.length > 255)
    | none => false
  if over then
    { r with
      description := some ((r.summary.getD "") ++ "\n\n" ++ (r.description.getD ""))
      summary := some (displayFeedbackType r ++ " reported by " ++
        splitPart r.createdBy 1 ++ " for " ++ titleOrName env.entity) }
  else r

/-- The regex test of router.ts line 97: `reqData.tag?.match(/(Excellent|Good)/g)`
is truthy exactly when the tag contains "Excellent" or "Good". -/
def tagPositive (tag : Option String) : Bool :=
  match tag with
  | none => false
  | some t => jsIncludes t "Excellent" || jsIncludes t "Good" 

/-- The Jira host resolution of router.ts lines 103-107 (POST / handler):
`config.getConfigArray('feedback.integrations.jira').find(c => host === c.host)
 || config.getConfigArray('feedback.integrations.jira')[0]`.
Returns `none` when no entry matches and the array is empty (in that case
the source then throws on `serviceConfig.getString`). -/
def resolveJiraConfigPost (cfgs : List JiraConf) (hostAnn : Option String) : Option JiraConf :=
  match List.find? (fun c => hostAnn == some c.host) cfgs with
  | some c => some c
  | none => cfgs.head?

/-- The Jira host resolution of router.ts lines 239-243 (GET /:id/ticket
handler), written there a second time with the same text. -/
def resolveJiraConfigTicket (cfgs : List JiraConf) (hostAnn : Option String) : Option JiraConf :=
  match List.find? (fun c => hostAnn == some c.host) cfgs with
  | some c => some c
  | none => cfgs.head?

/-- Router.ts line 132: `reqData.tag!.toLowerCase().split(' ').join('-')`. -/
def tagToLabel (t : String) : String :=
  String.intercalate "-" (jsSplit ' ' (jsToLower t))

/-- Router.ts lines 118-124: the description sent with the Jira ticket. -/
def jiraDescriptionOf (desc : String) (jiraUsername : Option String)
    (reporterEmail appTitle fType entityRoute : String) (feedbackId : Option String) : String :=
  desc ++ "\n\n" ++
    (match jiraUsername with
      | none => "Reported by: " ++ reporterEmail
      | some _ => "\r") ++
    "\n*Submitted from " ++ appTitle ++ "*\n[" ++ fType ++ " link|" ++
    entityRoute ++ "?id=" ++ jsStr feedbackId ++ "]"

/-- Router.ts lines 144-146: the notification mail subject. -/
def mailSubjectOf (req : FeedbackModel) (fType : String) : String :=
  jsStr req.tag ++ " - " ++ fType ++ " reported for " ++ splitPart req.projectId 1

/-- Router.ts lines 147-177: the notification mail body template. -/
def mailBodyOf (env : PostEnv) (req : FeedbackModel) (entityRoute : String) : String :=
  "\n<div>\n  Hi " ++ splitPart req.createdBy 1 ++
  ",\n  <br/> \n  <br/> \n  We have received your feedback for \n    <b>\n      " ++
  splitPart req.projectId 1 ++
  "\n    </b>, \n  and here are the details:\n  <br/>\n  <br/>\n  Summary: " ++
  jsStr req.summary ++ "\n  <br/>\n  <br/>\n  " ++
  (if (req.description.getD "").length > 0 then
    "Description: " ++ jsStr req.description ++ "\n    <br/>\n    <br/>"
   else "\r") ++
  "\n  Submitted from: " ++ jsStr req.url ++ "\n  <br/>\n  Submitted at: " ++
  env.nowUTC ++ " \n  <br/>\n  <br/>\n  <a href=\"" ++ entityRoute ++ "?id=" ++
  jsStr req.feedbackId ++ "\">\n    View on " ++ env.appTitle ++ "\n  </a>\n</div>"

/-- Router.ts lines 140-179: the mail branch
(`type.toUpperCase() === 'MAIL' || replyTo`), run after the optional Jira
branch with whatever `reqData` holds at that point. -/
def mailStep (env : PostEnv) (req : FeedbackModel) (ty : String) (replyTo : Option String)
    (reporterEmail entityRoute : String) (evs : List Event) : PostResult :=
  if jsToUpper ty == "MAIL" || jsTruthy replyTo then
    { events := evs ++ [Event.mailSend reporterEmail replyTo
        (mailSubjectOf req (displayFeedbackType req)) (mailBodyOf env req entityRoute)]
      crashed := false }
  else
    { events := evs, crashed := false }

/-- Router.ts lines 95-138: the Jira branch of the POST / handler, followed
by the mail branch.  `ty` is the value of `annotations['feedback/type']`
(already known to be present), `anns` the annotations object, `evs` the
events performed so far (insert and 201 response).  The branch throws a
TypeError when the config array is empty (`[0].getString`), when
`reqData.description` is undefined (`description!.concat`) or when
`reqData.tag` is undefined (`tag!.toLowerCase`). -/
def jiraThenMailStep (env : PostEnv) (req : FeedbackModel) (ty : String)
    (anns : List (String × String)) (replyTo : Option String)
    (reporterEmail entityRoute : String) (evs : List Event) : PostResult :=
  if jsToUpper ty == "JIRA" && !(tagPositive req.tag) then
    match resolveJiraConfigPost env.jiraConfigs (getAnn anns "feedback/host") with
    | none => { events := evs, crashed := true }
    | some serviceConfig =>
      let host := serviceConfig.host
      let authToken := serviceConfig.token
      let projectKey := getAnn anns "jira/project-key"
      let jiraUsername := env.jiraUsername
      match req.description with
      | none => { events := evs, crashed := true }
      | some desc =>
        let jiraDescription := jiraDescriptionOf desc jiraUsername reporterEmail
          env.appTitle (displayFeedbackType req) entityRoute req.feedbackId
        match req.tag with
        | none => { events := evs, crashed := true }
        | some tg =>
          let req2 := { req with ticketUrl := some (host ++ "/browse/" ++ env.ticketKey) }
          let evs2 := evs ++
            [Event.ticketCreate host authToken projectKey req.summary jiraDescription
              (tagToLabel tg) req.feedbackType jiraUsername,
             Event.storeUpdate req2]
          mailStep env req2 ty replyTo reporterEmail entityRoute evs2
  else
    mailStep env req ty replyTo reporterEmail entityRoute evs

/-- The POST / handler (router.ts lines 46-182) as a function from the
request body and the request environment to the ordered list of events it
performs.  `env.storeResult = none` models the sentinel falsy return `0`
of `storeFeedbackGetUuid`; `some uuid` models a successful insert, after
which the returned record is the inserted one with `feedbackId := uuid`.
The handler throws (crashed = true, after the 201 was already sent) when
the annotations object is present but the reporter entity has no profile
email (`.email` on undefined, line 92) or no `feedback/type` annotation
exists (`type.toUpperCase()`, line 96). -/
def postHandler (env : PostEnv) (req0 : FeedbackModel) : PostResult :=
  if summaryInvalid req0.summary then
    { events := [Event.response 500 (RespBody.err "Summary field empty")], crashed := false }
  else
    let reqData := prepareReqData env req0
    let fType := displayFeedbackType reqData
    let entityRoute := entityRouteOf env
    match env.storeResult with
    | none =>
      { events := [Event.storeInsert reqData,
          Event.response 500 (RespBody.err ("Failed to create " ++ fType))]
        crashed := false }
    | some uuid =>
      let respObj := { reqData with feedbackId := some uuid }
      let reqData2 := { reqData with feedbackId := some uuid }
      let evs0 := [Event.storeInsert reqData,
        Event.response 201 (RespBody.created (fType ++ " created successfully") respObj)]
      match env.entity with
      | none => { events := evs0, crashed := false }
      | some e =>
        match e.metadata.annotations with
        | none => { events := evs0, crashed := false }
        | some anns =>
          let type := getAnn anns "feedback/type"
          let replyTo := getAnn anns "feedback/email-to"
          match env.reporterEmail with
          | none => { events := evs0, crashed := true }
          | some reporterEmail =>
            match type with
            | none => { events := evs0, crashed := true }
            | some ty =>
              jiraThenMailStep env reqData2 ty anns replyTo reporterEmail entityRoute evs0

/-- Query parameters of GET / after string conversion and parseInt: `none`
models an absent (or falsy) query parameter, `some n` a parsed value. -/
structure ListQuery where
  projectId : Option String := none
  offset : Option Int := none
  limit : Option Int := none
  query : Option String := none
deriving DecidableEq

/-- The JSON body of the GET / response: the spread of the store result
plus `currentPage` and `pageSize` (router.ts lines 202-205).  JavaScript
number division `offset / limit` is modelled over the exact rationals. -/
structure ListRespBody (α : Type) where
  data : α
  currentPage : ℚ
  pageSize : Int
deriving DecidableEq

/-- The GET / handler (router.ts lines 184-206), with the
`getAllFeedbacks` store call abstracted as the function `gaf` from
(projectId, offset, limit, searchKey) to the store result. -/
def getRootHandler {α : Type} (gaf : String → Int → Int → String → α)
    (q : ListQuery) : Nat × ListRespBody α :=
  let projectId := match q.projectId with
    | some p => if p == "" then "all" else p
    | none => "all"
  let offset := match q.offset with
    | some o => o
    | none => 0
  let limit := match q.limit with
    | some l => l
    | none => 10
  let searchKey := match q.query with
    | some s => if s == "" then "" else s
    | none => ""
  let feedbackData := gaf projectId offset limit searchKey
  let page : ℚ := (offset : ℚ) / (limit : ℚ) + 1
  (200, { data := feedbackData, currentPage := page, pageSize := limit })

/-- Status and assignee of a ticket as returned by `getTicketDetails`. -/
structure TicketDetails where
  status : String
  assignee : Option String
deriving DecidableEq

/-- The environment of one GET /:id/ticket request: the catalog lookup
result, the configured Jira entries and the `getTicketDetails` result. -/
structure TicketEnv where
  entity : Option Entity
  jiraConfigs : List JiraConf
  ticketResp : Option TicketDetails
deriving DecidableEq

/-- Outcome of the GET /:id/ticket handler: a 200 carrying the details
fetched from (host, token, ticketId), a 404, or a thrown TypeError
(empty config array). -/
inductive TicketOutcome where
  | ok (host : String) (token : String) (ticketId : String) (resp : Option TicketDetails)
  | notFound (msg : String)
  | crash
deriving DecidableEq

/-- The GET /:id/ticket handler (router.ts lines 224-258): requires truthy
`ticketId` and `projectId` query parameters and entity annotation
`feedback/type` equal to jira case-insensitively; resolves the Jira config
entry by the `feedback/host` annotation and fetches the ticket details;
404 otherwise. -/
def ticketHandler (env : TicketEnv) (ticketIdQ projectIdQ : Option String) : TicketOutcome :=
  let ticketId := if jsTruthy ticketIdQ then ticketIdQ else none
  let projectId := if jsTruthy projectIdQ then projectIdQ else none
  let notFoundMsg := "Unable to fetch jira ticket " ++
    (match ticketId with | some t => t | none => "null")
  match ticketId, projectId with
  | some tid, some _ =>
    (match (env.entity.bind fun e => e.metadata.annotations).bind
        (fun anns => getAnn anns "feedback/type") with
     | some ft =>
       if jsToLower ft == "jira" then
         let hostAnn := (env.entity.bind fun e => e.metadata.annotations).bind
           (fun anns => getAnn anns "feedback/host")
         match resolveJiraConfigTicket env.jiraConfigs hostAnn with
         | none => TicketOutcome.crash
         | some serviceConfig =>
           TicketOutcome.ok serviceConfig.host serviceConfig.token tid env.ticketResp
       else TicketOutcome.notFound notFoundMsg
     | none => TicketOutcome.notFound notFoundMsg)
  | _, _ => TicketOutcome.notFound notFoundMsg

/-- Events of a POST / execution that are ticket creations. -/
def isTicketCreate : Event → Bool
  | Event.ticketCreate _ _ _ _ _ _ _ _ => true
  | _ => false

/-- Events of a POST / execution that are store updates. -/
def isStoreUpdate : Event → Bool
  | Event.storeUpdate _ => true
  | _ => false

/-- Events of a POST / execution that are mail sends. -/
def isMailSend : Event → Bool
  | Event.mailSend _ _ _ _ => true
  | _ => false

/-- The side effects named by the spec as happening only after the 201
response: ticket creation, ticket-URL store update, mail send. -/
def isSideEffect (e : Event) : Bool :=
  isTicketCreate e || isStoreUpdate e || isMailSend e

/-- A 201 response event. -/
def isResp201 : Event → Bool
  | Event.response 201 _ => true
  | _ => false

/-- Walks an event list in order and checks that no ticket/update/mail
side effect appears before the first 201 response (events from the 201 on
are unconstrained).  True in particular when the list has side effects
only after a 201, and when it has no side effects at all. -/
def noEffectBefore201 : List Event → Bool
  | [] => true
  | e :: rest => if isResp201 e then true else !(isSideEffect e) && noEffectBefore201 rest

theorem prepareReqData_tag (env : PostEnv) (req0 : FeedbackModel) :
    (prepareReqData env req0).tag = req0.tag := by
  unfold prepareReqData
  dsimp only
  split <;> rfl

theorem prepareReqData_feedbackType (env : PostEnv) (req0 : FeedbackModel) :
    (prepareReqData env req0).feedbackType = req0.feedbackType := by
  unfold prepareReqData
  dsimp only
  split <;> rfl

theorem prepareReqData_projectId (env : PostEnv) (req0 : FeedbackModel) :
    (prepareReqData env req0).projectId = req0.projectId := by
  unfold prepareReqData
  dsimp only
  split <;> rfl

theorem prepareReqData_createdBy (env : PostEnv) (req0 : FeedbackModel) :
    (prepareReqData env req0).createdBy = req0.createdBy := by
  unfold prepareReqData
  dsimp only
  split <;> rfl

theorem prepareReqData_ticketUrl (env : PostEnv) (req0 : FeedbackModel) :
    (prepareReqData env req0).ticketUrl = req0.ticketUrl := by
  unfold prepareReqData
  dsimp only
  split <;> rfl

theorem displayFeedbackType_prepare (env : PostEnv) (req0 : FeedbackModel) :
    displayFeedbackType (prepareReqData env req0) = displayFeedbackType req0 := by
  unfold displayFeedbackType
  rw [prepareReqData_feedbackType]

/-- C2: in every execution of POST /, no ticket-creation call, ticket-URL
store update or mail send happens before the 201 response: walking the
event list in order, every event before the first 201 response is free of
those side effects (and an execution with no 201 has none at all). -/
theorem post_201_sent_before_side_effects (env : PostEnv) (req0 : FeedbackModel) :
    noEffectBefore201 (postHandler env req0).events = true := by
  unfold postHandler jiraThenMailStep mailStep
  dsimp only
  repeat' split
  all_goals
    simp [noEffectBefore201, isResp201, isSideEffect, isTicketCreate, isStoreUpdate, isMailSend]

/-- A concrete request environment used to evaluate the handler theorems
on closed inputs. -/
def envNoEntity : PostEnv :=
  { entity := none
    reporterEmail := none
    appTitle := "Test App"
    jiraConfigs := []
    jiraUsername := none
    ticketKey := "K-1"
    storeResult := none
    origin := "http://localhost:3000"
    now := "2024-01-01T00:00:00.000Z"
    nowUTC := "Mon, 01 Jan 2024 00:00:00 GMT" }

/-- C5: a POST / whose summary is missing or trims to the empty string is
answered with a single 500 error response and nothing else happens: no
store insert, no ticket call, no mail. -/
theorem post_empty_summary_500 (env : PostEnv) (req0 : FeedbackModel)
    (h : req0.summary = none ∨ ∃ s, req0.summary = some s ∧ jsTrim s = "") :
    postHandler env req0 =
      { events := [Event.response 500 (RespBody.err "Summary field empty")], crashed := false } := by
  have hinv : summaryInvalid req0.summary = true := by
    rcases h with h | ⟨s, hs, ht⟩
    · rw [h]; rfl
    · rw [hs]
      unfold summaryInvalid
      simp [ht]
  simp [postHandler, hinv]

theorem post_empty_summary_500_witness :
    postHandler envNoEntity { summary := some "   " } =
      { events := [Event.response 500 (RespBody.err "Summary field empty")], crashed := false } :=
  post_empty_summary_500 envNoEntity { summary := some "   " }
    (Or.inr ⟨"   ", rfl, by decide⟩)

/-- C6: when the store insert returns the falsy sentinel, the handler
responds with a generic 500 error after the insert attempt and performs no
ticket creation, no store update and no mail send. -/
theorem post_store_sentinel_500 (env : PostEnv) (req0 : FeedbackModel)
    (hv : summaryInvalid req0.summary = false) (hs : env.storeResult = none) :
    postHandler env req0 =
      { events := [Event.storeInsert (prepareReqData env req0),
          Event.response 500
            (RespBody.err ("Failed to create " ++ displayFeedbackType (prepareReqData env req0)))]
        crashed := false } ∧
    List.filter isSideEffect (postHandler env req0).events = [] := by
  have h1 : postHandler env req0 =
      { events := [Event.storeInsert (prepareReqData env req0),
          Event.response 500
            (RespBody.err ("Failed to create " ++ displayFeedbackType (prepareReqData env req0)))]
        crashed := false } := by
    simp [postHandler, hv, hs]
  refine ⟨h1, ?_⟩
  rw [h1]
  simp [isSideEffect, isTicketCreate, isStoreUpdate, isMailSend]

theorem post_store_sentinel_500_witness :
    postHandler envNoEntity { summary := some "hello" } =
      { events := [Event.storeInsert (prepareReqData envNoEntity { summary := some "hello" }),
          Event.response 500 (RespBody.err ("Failed to create " ++
            displayFeedbackType (prepareReqData envNoEntity { summary := some "hello" })))]
        crashed := false } ∧
    List.filter isSideEffect (postHandler envNoEntity { summary := some "hello" }).events = [] :=
  post_store_sentinel_500 envNoEntity { summary := some "hello" } (by decide) rfl

/-- C10: when the catalog lookup finds no entity, or an entity whose
metadata has no annotations object, a successful POST / performs exactly
the initial insert and the 201 response: no ticket call, no mail, no
second store update, and the inserted record keeps the ticketUrl of the
request (absent on a fresh submission). -/
theorem post_no_annotations_insert_only (env : PostEnv) (req0 : FeedbackModel) (uuid : String)
    (hv : summaryInvalid req0.summary = false) (hs : env.storeResult = some uuid)
    (hann : env.entity = none ∨ ∃ e, env.entity = some e ∧ e.metadata.annotations = none) :
    postHandler env req0 =
      { events := [Event.storeInsert (prepareReqData env req0),
          Event.response 201 (RespBody.created
            (displayFeedbackType (prepareReqData env req0) ++ " created successfully")
            { prepareReqData env req0 with feedbackId := some uuid })]
        crashed := false } ∧
    (prepareReqData env req0).ticketUrl = req0.ticketUrl ∧
    List.filter isSideEffect (postHandler env req0).events = [] := by
  have h1 : postHandler env req0 =
      { events := [Event.storeInsert (prepareReqData env req0),
          Event.response 201 (RespBody.created
            (displayFeedbackType (prepareReqData env req0) ++ " created successfully")
            { prepareReqData env req0 with feedbackId := some uuid })]
        crashed := false } := by
    rcases hann with h | ⟨e, he, hanns⟩
    · simp [postHandler, hv, hs, h]
    · simp [postHandler, hv, hs, he, hanns]
  refine ⟨h1, prepareReqData_ticketUrl env req0, ?_⟩
  rw [h1]
  simp [isSideEffect, isTicketCreate, isStoreUpdate, isMailSend]

theorem post_no_annotations_insert_only_witness :
    postHandler { envNoEntity with storeResult := some "id-1" } { summary := some "hello" } =
      { events := [Event.storeInsert
            (prepareReqData { envNoEntity with storeResult := some "id-1" } { summary := some "hello" }),
          Event.response 201 (RespBody.created
            (displayFeedbackType (prepareReqData { envNoEntity with storeResult := some "id-1" }
                { summary := some "hello" }) ++ " created successfully")
            { prepareReqData { envNoEntity with storeResult := some "id-1" }
                { summary := some "hello" } with feedbackId := some "id-1" })]
        crashed := false } ∧
    (prepareReqData { envNoEntity with storeResult := some "id-1" }
        { summary := some "hello" }).ticketUrl =
      ({ summary := some "hello" } : FeedbackModel).ticketUrl ∧
    List.filter isSideEffect
      (postHandler { envNoEntity with storeResult := some "id-1" }
        { summary := some "hello" }).events = [] :=
  post_no_annotations_insert_only { envNoEntity with storeResult := some "id-1" }
    { summary := some "hello" } "id-1" (by decide) rfl (Or.inl rfl)

/-- C4: on a valid submission the record handed to the initial store
insert is the prepared request; when the given summary exceeds 255
characters the whole summary is demoted into the description (followed by
a blank line and the original description) and the stored summary becomes
the templated string "(Feedback or Issue) reported by (user) for (entity
title or name)"; a summary of at most 255 characters is stored unchanged,
as is the description. -/
theorem post_summary_demotion (env : PostEnv) (req0 : FeedbackModel) (s : String)
    (hs : req0.summary = some s) :
    (summaryInvalid req0.summary = false →
      List.head? (postHandler env req0).events =
        some (Event.storeInsert (prepareReqData env req0))) ∧
    (s.length > 255 →
      (prepareReqData env req0).description =
        some (s ++ "\n\n" ++ (req0.description.getD "")) ∧
      (prepareReqData env req0).summary =
        some (displayFeedbackType req0 ++ " reported by " ++
          splitPart req0.createdBy 1 ++ " for " ++ titleOrName env.entity)) ∧
    (s.length ≤ 255 →
      (prepareReqData env req0).summary = some s ∧
      (prepareReqData env req0).description = req0.description) := by
  refine ⟨?_, ?_, ?_⟩
  · intro hv
    unfold postHandler jiraThenMailStep mailStep
    dsimp only
    repeat' split
    all_goals simp_all [List.head?]
  · intro hlen
    constructor
    · unfold prepareReqData
      dsimp only
      simp [hs, hlen]
    · unfold prepareReqData
      dsimp only
      simp [hs, hlen, displayFeedbackType]
  · intro hlen
    have hover : (match req0.summary with
        | some s => decide (s.length > 255)
        | none => false) = false := by
      rw [hs]
      simpa using Nat.not_lt.mpr hlen
    unfold prepareReqData
    dsimp only
    simp only [hover]
    simp [hs]

/-- A summary of 300 characters, used to evaluate the demotion path. -/
def longSummary : String := String.mk (List.replicate 300 'a')

set_option maxRecDepth 4000 in
theorem post_summary_demotion_witness :
    (prepareReqData envNoEntity { summary := some longSummary }).description =
      some (longSummary ++ "\n\n" ++
        (({ summary := some longSummary } : FeedbackModel).description.getD "")) ∧
    (prepareReqData envNoEntity { summary := some longSummary }).summary =
      some (displayFeedbackType { summary := some longSummary } ++ " reported by " ++
        splitPart ({ summary := some longSummary } : FeedbackModel).createdBy 1 ++ " for " ++
        titleOrName envNoEntity.entity) :=
  (post_summary_demotion envNoEntity { summary := some longSummary } longSummary rfl).2.1
    (by decide)

/-- C7: the POST / handler and the GET /:id/ticket handler resolve the
Jira configuration entry with one and the same policy: the first
configured entry whose host equals the entity's feedback/host annotation
when one exists, and otherwise the first configured entry. -/
theorem jira_host_resolution_policy (cfgs : List JiraConf) (hostAnn : Option String) :
    resolveJiraConfigPost cfgs hostAnn = resolveJiraConfigTicket cfgs hostAnn ∧
    (∀ c, c ∈ cfgs → hostAnn = some c.host →
      ∃ c2, resolveJiraConfigPost cfgs hostAnn = some c2 ∧ hostAnn = some c2.host ∧ c2 ∈ cfgs) ∧
    ((∀ c, c ∈ cfgs → hostAnn ≠ some c.host) →
      resolveJiraConfigPost cfgs hostAnn = cfgs.head?) := by
  refine ⟨rfl, ?_, ?_⟩
  · intro c hc hhost
    unfold resolveJiraConfigPost
    cases hfind : List.find? (fun c => hostAnn == some c.host) cfgs with
    | none =>
      rw [List.find?_eq_none] at hfind
      exact absurd (by simpa using hhost) (by simpa using hfind c hc)
    | some c2 =>
      refine ⟨c2, rfl, ?_, List.mem_of_find?_eq_some hfind⟩
      have := List.find?_some hfind
      simpa using this
  · intro hnone
    unfold resolveJiraConfigPost
    have hfind : List.find? (fun c => hostAnn == some c.host) cfgs = none := by
      rw [List.find?_eq_none]
      intro c hc
      simpa using hnone c hc
    rw [hfind]

theorem jira_host_resolution_policy_witness :
    ∃ c2, resolveJiraConfigPost [{ host := "h1", token := "t1" }, { host := "h2", token := "t2" }]
        (some "h2") = some c2 ∧
      (some "h2" : Option String) = some c2.host ∧
      c2 ∈ [({ host := "h1", token := "t1" } : JiraConf), { host := "h2", token := "t2" }] :=
  (jira_host_resolution_policy
      [{ host := "h1", token := "t1" }, { host := "h2", token := "t2" }] (some "h2")).2.1
    { host := "h2", token := "t2" } (by decide) rfl

/-- The projectId the GET / handler passes to the store, written as the
spec words it (defaults to "all" when the parameter is absent or falsy). -/
def usedProjectId (q : ListQuery) : String :=
  match q.projectId with
  | some p => if p == "" then "all" else p
  | none => "all"

/-- The offset the GET / handler passes to the store (0 when absent). -/
def usedOffset (q : ListQuery) : Int :=
  match q.offset with
  | some o => o
  | none => 0

/-- The limit the GET / handler passes to the store (10 when absent). -/
def usedLimit (q : ListQuery) : Int :=
  match q.limit with
  | some l => l
  | none => 10

/-- The search key the GET / handler passes to the store ("" when
absent). -/
def usedSearchKey (q : ListQuery) : String :=
  match q.query with
  | some s => if s == "" then "" else s
  | none => ""

/-- C9: GET / always answers 200; the body carries the store result for
the effective projectId/offset/limit/searchKey together with the page
metadata currentPage = offset / limit + 1 and pageSize = limit; an absent
projectId parameter defaults to "all", an absent offset to 0, an absent
limit to 10, and present offset and limit parameters are used as given. -/
theorem get_root_pagination {α : Type} (gaf : String → Int → Int → String → α)
    (q : ListQuery) :
    (getRootHandler gaf q).1 = 200 ∧
    (getRootHandler gaf q).2.data =
      gaf (usedProjectId q) (usedOffset q) (usedLimit q) (usedSearchKey q) ∧
    (getRootHandler gaf q).2.currentPage =
      ((usedOffset q : ℚ) / (usedLimit q : ℚ)) + 1 ∧
    (getRootHandler gaf q).2.pageSize = usedLimit q ∧
    (q.projectId = none → usedProjectId q = "all") ∧
    (q.offset = none → usedOffset q = 0) ∧
    (q.limit = none → usedLimit q = 10) ∧
    (∀ o, q.offset = some o → usedOffset q = o) ∧
    (∀ l, q.limit = some l → usedLimit q = l) := by
  refine ⟨rfl, rfl, rfl, rfl, ?_, ?_, ?_, ?_, ?_⟩
  · intro h; unfold usedProjectId; rw [h]
  · intro h; unfold usedOffset; rw [h]
  · intro h; unfold usedLimit; rw [h]
  · intro o h; unfold usedOffset; rw [h]
  · intro l h; unfold usedLimit; rw [h]

theorem get_root_pagination_witness :
    (getRootHandler (fun _ _ _ _ => (0 : Nat)) {}).1 = 200 ∧
    usedProjectId {} = "all" ∧ usedOffset {} = 0 ∧ usedLimit {} = 10 ∧
    usedOffset { offset := some 40 } = 40 ∧ usedLimit { limit := some 20 } = 20 :=
  ⟨(get_root_pagination (fun _ _ _ _ => (0 : Nat)) {}).1,
   (get_root_pagination (fun _ _ _ _ => (0 : Nat)) {}).2.2.2.2.1 rfl,
   (get_root_pagination (fun _ _ _ _ => (0 : Nat)) {}).2.2.2.2.2.1 rfl,
   (get_root_pagination (fun _ _ _ _ => (0 : Nat)) {}).2.2.2.2.2.2.1 rfl,
   (get_root_pagination (fun _ _ _ _ => (0 : Nat)) { offset := some 40 }).2.2.2.2.2.2.2.1 40 rfl,
   (get_root_pagination (fun _ _ _ _ => (0 : Nat)) { limit := some 20 }).2.2.2.2.2.2.2.2 20 rfl⟩

/-- Annotations of an entity whose feedback/type is JIRA. -/
def annsJira : List (String × String) :=
  [("feedback/type", "JIRA"), ("jira/project-key", "PROJ")]

/-- A catalog entity carrying `annsJira`. -/
def entityJira : Entity :=
  { kind := "Component"
    metadata :=
      { nmspace := "default", name := "app", title := none, annotations := some annsJira } }

/-- A request environment in which the JIRA branch has everything it
needs except what the request body itself must carry. -/
def envJira : PostEnv :=
  { entity := some entityJira
    reporterEmail := some "jdoe@example.com"
    appTitle := "Test App"
    jiraConfigs := [{ host := "https://jira.host", token := "jira-token" }]
    jiraUsername := some "John Doe"
    ticketKey := "PROJ-01"
    storeResult := some "id-1"
    origin := "http://localhost:3000"
    now := "2024-01-01T00:00:00.000Z"
    nowUTC := "Mon, 01 Jan 2024 00:00:00 GMT" }

/-- A negative-sentiment submission that carries no description. -/
def reqNoDescription : FeedbackModel :=
  { summary := some "Broken page"
    tag := some "Bad"
    feedbackType := some "ISSUE"
    createdBy := some "user:default/jdoe"
    projectId := some "component:default/app"
    url := some "http://localhost:3000/page" }

/-- C3 counterexample: a stored negative-feedback submission against a
JIRA-typed entity whose description is absent.  The handler reaches the
JIRA branch and throws on `reqData.description!.concat` before
`createJiraTicket` is called, so no ticket-creation call is issued and no
ticket-URL update happens, although feedback/type is JIRA and the tag does
not match (Excellent|Good). -/
theorem post_jira_counterexample_no_description :
    getAnn annsJira "feedback/type" = some "JIRA" ∧
    tagPositive reqNoDescription.tag = false ∧
    List.filter isTicketCreate (postHandler envJira reqNoDescription).events = [] ∧
    List.filter isStoreUpdate (postHandler envJira reqNoDescription).events = [] ∧
    (postHandler envJira reqNoDescription).crashed = true := by decide

/-- C3 (amended): for every stored submission against an entity whose
feedback/type annotation is JIRA case-insensitively, provided the reporter
email resolves, a Jira config entry resolves, and the request carries a
tag and a (possibly demoted) description: when the tag does not contain
Excellent or Good, exactly one ticket-creation call is issued, followed by
exactly one store update whose record carries
ticketUrl = host ++ "/browse/" ++ key; when the tag does match the
positive-sentiment pattern, no ticket call and no store update happen and
the ticketUrl stays that of the request. -/
theorem post_jira_ticket_branch (env : PostEnv) (req0 : FeedbackModel)
    (uuid : String) (e : Entity) (anns : List (String × String)) (ty : String)
    (em d tg : String) (sc : JiraConf)
    (hv : summaryInvalid req0.summary = false)
    (hst : env.storeResult = some uuid)
    (he : env.entity = some e)
    (hanns : e.metadata.annotations = some anns)
    (hty : getAnn anns "feedback/type" = some ty)
    (hem : env.reporterEmail = some em)
    (hcfg : resolveJiraConfigPost env.jiraConfigs (getAnn anns "feedback/host") = some sc)
    (hdesc : (prepareReqData env req0).description = some d)
    (htag : req0.tag = some tg) :
    (jsToUpper ty = "JIRA" → tagPositive req0.tag = false →
      ∃ r, List.filter (fun ev => isTicketCreate ev || isStoreUpdate ev)
          (postHandler env req0).events =
        [Event.ticketCreate sc.host sc.token (getAnn anns "jira/project-key")
            (prepareReqData env req0).summary
            (jiraDescriptionOf d env.jiraUsername em env.appTitle
              (displayFeedbackType (prepareReqData env req0)) (entityRouteOf env) (some uuid))
            (tagToLabel tg) req0.feedbackType env.jiraUsername,
         Event.storeUpdate r] ∧
        r.ticketUrl = some (sc.host ++ "/browse/" ++ env.ticketKey) ∧
        (postHandler env req0).crashed = false) ∧
    (tagPositive req0.tag = true →
      List.filter (fun ev => isTicketCreate ev || isStoreUpdate ev)
          (postHandler env req0).events = [] ∧
      (prepareReqData env req0).ticketUrl = req0.ticketUrl) := by
  constructor
  · intro hjira hneg
    have hneg2 : tagPositive (some tg) = false := by rw [← htag]; exact hneg
    refine ⟨{ prepareReqData env req0 with
        feedbackId := some uuid
        ticketUrl := some (sc.host ++ "/browse/" ++ env.ticketKey) }, ?_, rfl, ?_⟩
    · simp only [postHandler, jiraThenMailStep, mailStep, hv, hst, he, hanns, hty, hem, hcfg]
      simp [hv, hdesc, htag, hjira, hneg2, prepareReqData_tag, prepareReqData_feedbackType,
        displayFeedbackType]
      split <;> simp [isTicketCreate, isStoreUpdate]
    · simp only [postHandler, jiraThenMailStep, mailStep, hv, hst, he, hanns, hty, hem, hcfg]
      simp [hv, hdesc, htag, hjira, hneg2, prepareReqData_tag]
      split <;> rfl
  · intro hposi
    have hposi2 : tagPositive (some tg) = true := by rw [← htag]; exact hposi
    constructor
    · simp only [postHandler, jiraThenMailStep, mailStep, hv, hst, he, hanns, hty, hem]
      simp [hv, prepareReqData_tag, htag, hposi2, isTicketCreate, isStoreUpdate]
      split <;> simp [isTicketCreate, isStoreUpdate]
    · exact prepareReqData_ticketUrl env req0

/-- A negative-sentiment submission that carries a description. -/
def reqWithDescription : FeedbackModel :=
  { summary := some "Broken page"
    description := some "It is broken"
    tag := some "Bad"
    feedbackType := some "ISSUE"
    createdBy := some "user:default/jdoe"
    projectId := some "component:default/app"
    url := some "http://localhost:3000/page" }

theorem post_jira_ticket_branch_witness :
    ∃ r, List.filter (fun ev => isTicketCreate ev || isStoreUpdate ev)
        (postHandler envJira reqWithDescription).events =
      [Event.ticketCreate ({ host := "https://jira.host", token := "jira-token" } : JiraConf).host
          ({ host := "https://jira.host", token := "jira-token" } : JiraConf).token
          (getAnn annsJira "jira/project-key")
          (prepareReqData envJira reqWithDescription).summary
          (jiraDescriptionOf "It is broken" envJira.jiraUsername "jdoe@example.com"
            envJira.appTitle (displayFeedbackType (prepareReqData envJira reqWithDescription))
            (entityRouteOf envJira) (some "id-1"))
          (tagToLabel "Bad") reqWithDescription.feedbackType envJira.jiraUsername,
       Event.storeUpdate r] ∧
      r.ticketUrl = some (({ host := "https://jira.host", token := "jira-token" } : JiraConf).host
        ++ "/browse/" ++ envJira.ticketKey) ∧
      (postHandler envJira reqWithDescription).crashed = false :=
  (post_jira_ticket_branch envJira reqWithDescription "id-1" entityJira annsJira "JIRA"
      "jdoe@example.com" "It is broken" "Bad"
      { host := "https://jira.host", token := "jira-token" }
      (by decide) rfl rfl rfl (by decide) rfl (by decide) (by decide) rfl).1
    (by decide) (by decide)

/-- Annotations carrying a reply-to address but no feedback/type. -/
def annsMailOnly : List (String × String) := [("feedback/email-to", "boss@example.com")]

/-- A catalog entity carrying `annsMailOnly`. -/
def entityMailOnly : Entity :=
  { kind := "Component"
    metadata :=
      { nmspace := "default", name := "app", title := none, annotations := some annsMailOnly } }

/-- The `envJira` environment pointed at `entityMailOnly`. -/
def envMailOnly : PostEnv := { envJira with entity := some entityMailOnly }

/-- C8 counterexample: the entity annotations contain feedback/email-to
but no feedback/type.  The handler throws at `type.toUpperCase()` before
either branch runs, so no mail send is invoked although a feedback/email-to
annotation is present. -/
theorem post_mail_counterexample_missing_type :
    getAnn annsMailOnly "feedback/email-to" = some "boss@example.com" ∧
    getAnn annsMailOnly "feedback/type" = none ∧
    List.filter isMailSend (postHandler envMailOnly reqWithDescription).events = [] ∧
    (postHandler envMailOnly reqWithDescription).crashed = true := by decide

/-- C8 (amended): for every stored submission whose resolved entity
annotations contain a feedback/type annotation, whose reporter email
resolves, and where feedback/type equals MAIL case-insensitively or a
nonempty feedback/email-to annotation is present — provided the JIRA
branch, when it is also triggered, finds the tag, description and config
entry it needs instead of throwing — exactly one mail send is invoked,
addressed to the reporter's email, with the reply-to annotation, and its
subject both starts with the feedback tag and ends with the project name. -/
theorem post_mail_branch (env : PostEnv) (req0 : FeedbackModel)
    (uuid : String) (e : Entity) (anns : List (String × String)) (ty em : String)
    (hv : summaryInvalid req0.summary = false)
    (hst : env.storeResult = some uuid)
    (he : env.entity = some e)
    (hanns : e.metadata.annotations = some anns)
    (hty : getAnn anns "feedback/type" = some ty)
    (hem : env.reporterEmail = some em)
    (hcond : jsToUpper ty = "MAIL" ∨ jsTruthy (getAnn anns "feedback/email-to") = true)
    (hsafe : jsToUpper ty = "JIRA" → tagPositive req0.tag = false →
      (∃ tg, req0.tag = some tg) ∧ (∃ d, (prepareReqData env req0).description = some d) ∧
      (∃ sc, resolveJiraConfigPost env.jiraConfigs (getAnn anns "feedback/host") = some sc)) :
    ∃ b, List.filter isMailSend (postHandler env req0).events =
        [Event.mailSend em (getAnn anns "feedback/email-to")
          (jsStr req0.tag ++ " - " ++ displayFeedbackType req0 ++ " reported for " ++
            splitPart req0.projectId 1) b] ∧
      (∃ rest, jsStr req0.tag ++ " - " ++ displayFeedbackType req0 ++ " reported for " ++
          splitPart req0.projectId 1 = jsStr req0.tag ++ rest) ∧
      (∃ pre, jsStr req0.tag ++ " - " ++ displayFeedbackType req0 ++ " reported for " ++
          splitPart req0.projectId 1 = pre ++ splitPart req0.projectId 1) ∧
      (postHandler env req0).crashed = false := by
  have hsub1 : ∃ rest, jsStr req0.tag ++ " - " ++ displayFeedbackType req0 ++
      " reported for " ++ splitPart req0.projectId 1 = jsStr req0.tag ++ rest :=
    ⟨" - " ++ displayFeedbackType req0 ++ " reported for " ++ splitPart req0.projectId 1,
      by simp [String.append_assoc]⟩
  have hsub2 : ∃ pre, jsStr req0.tag ++ " - " ++ displayFeedbackType req0 ++
      " reported for " ++ splitPart req0.projectId 1 = pre ++ splitPart req0.projectId 1 :=
    ⟨jsStr req0.tag ++ " - " ++ displayFeedbackType req0 ++ " reported for ", rfl⟩
  have hmailCond : (jsToUpper ty == "MAIL" ||
      jsTruthy (getAnn anns "feedback/email-to")) = true := by
    rcases hcond with h | h
    · rw [h]; rfl
    · rw [h]; simp
  by_cases hjira : jsToUpper ty = "JIRA"
  · have hrt : jsTruthy (getAnn anns "feedback/email-to") = true := by
      rcases hcond with h | h
      · rw [hjira] at h
        exact absurd h (by decide)
      · exact h
    by_cases hpos : tagPositive req0.tag = true
    · refine ⟨mailBodyOf env { prepareReqData env req0 with feedbackId := some uuid }
        (entityRouteOf env), ?_, hsub1, hsub2, ?_⟩ <;>
      · simp only [postHandler, jiraThenMailStep, mailStep, hv, hst, he, hanns, hty, hem]
        simp [hv, prepareReqData_tag, prepareReqData_projectId, prepareReqData_feedbackType,
          hpos, hrt, hjira, isMailSend, mailSubjectOf, displayFeedbackType]
    · obtain ⟨⟨tg, htg⟩, ⟨d, hd⟩, ⟨sc, hsc⟩⟩ :=
        hsafe hjira (by simpa using hpos)
      have hneg2 : tagPositive (some tg) = false := by
        rw [← htg]; simpa using hpos
      refine ⟨mailBodyOf env { prepareReqData env req0 with
          feedbackId := some uuid
          ticketUrl := some (sc.host ++ "/browse/" ++ env.ticketKey) }
        (entityRouteOf env), ?_, hsub1, hsub2, ?_⟩ <;>
      · simp only [postHandler, jiraThenMailStep, mailStep, hv, hst, he, hanns, hty, hem, hsc]
        simp [hv, htg, hd, hneg2, hjira, hrt, prepareReqData_tag,
          prepareReqData_projectId, prepareReqData_feedbackType, isMailSend, mailSubjectOf,
          displayFeedbackType]
  · have hjf : (jsToUpper ty == "JIRA" && !(tagPositive req0.tag)) = false := by
      have : (jsToUpper ty == "JIRA") = false := by
        simpa using hjira
      rw [this]; rfl
    refine ⟨mailBodyOf env { prepareReqData env req0 with feedbackId := some uuid }
      (entityRouteOf env), ?_, hsub1, hsub2, ?_⟩ <;>
    · simp only [postHandler, jiraThenMailStep, mailStep, hv, hst, he, hanns, hty, hem]
      simp [hv, prepareReqData_tag, prepareReqData_projectId, prepareReqData_feedbackType,
        hjf, hmailCond, isMailSend, mailSubjectOf, displayFeedbackType]

/-- Annotations of an entity whose feedback/type is MAIL. -/
def annsMail : List (String × String) :=
  [("feedback/type", "MAIL"), ("feedback/email-to", "boss@example.com")]

/-- A catalog entity carrying `annsMail`. -/
def entityMail : Entity :=
  { kind := "Component"
    metadata :=
      { nmspace := "default", name := "app", title := none, annotations := some annsMail } }

/-- The `envJira` environment pointed at `entityMail`. -/
def envMail : PostEnv := { envJira with entity := some entityMail }

theorem post_mail_branch_witness :
    ∃ b, List.filter isMailSend (postHandler envMail reqWithDescription).events =
        [Event.mailSend "jdoe@example.com" (getAnn annsMail "feedback/email-to")
          (jsStr reqWithDescription.tag ++ " - " ++ displayFeedbackType reqWithDescription ++
            " reported for " ++ splitPart reqWithDescription.projectId 1) b] ∧
      (∃ rest, jsStr reqWithDescription.tag ++ " - " ++
          displayFeedbackType reqWithDescription ++ " reported for " ++
          splitPart reqWithDescription.projectId 1 = jsStr reqWithDescription.tag ++ rest) ∧
      (∃ pre, jsStr reqWithDescription.tag ++ " - " ++
          displayFeedbackType reqWithDescription ++ " reported for " ++
          splitPart reqWithDescription.projectId 1 =
            pre ++ splitPart reqWithDescription.projectId 1) ∧
      (postHandler envMail reqWithDescription).crashed = false :=
  post_mail_branch envMail reqWithDescription "id-1" entityMail annsMail "MAIL"
    "jdoe@example.com" (by decide) rfl rfl rfl (by decide) rfl (Or.inl (by decide))
    (fun hj => absurd hj (by decide))
